import Mathlib

/-!
Verification of the webp-image-optimizer core against its design document.

The development shallowly embeds the quality-decision engine
(`ImageContentAnalyzer`, `DynamicQualityCalculator`), the quality-validation
engine (`QualityValidator`), the batch coordinator (`BatchProcessor`,
`ProgressReporter.generateFinalReport`) and the configuration layer
(`ConfigManager`).  JavaScript numbers are modelled as rationals, integer
quality settings as integers, and functions that may throw are modelled with
`Except String`; a `catch` that swallows an exception therefore produces a
total function or an `Except.ok` on every path.  Effects of the external
codec (sharp) are passed in as explicit arguments: a statistics value that a
codec call would have produced, or `Option`/`Except` when the call can fail.
-/

/-- Content type classification: photo, graphic or mixed. -/
inductive ContentType
  | photo
  | graphic
  | mixed
deriving DecidableEq, Repr

/-- Compression strategy tier. -/
inductive CompressionStrategy
  | high_quality
  | balanced
  | size_optimized
deriving DecidableEq, Repr

/-- Image characteristics extracted by `ImageContentAnalyzer.extractImageCharacteristics`.
The field `aspect` embeds the source field `aspectRatio` (width/height). -/
structure ImageCharacteristics where
  colorComplexity : ℚ
  edgeCount : ℚ
  hasTransparency : Bool
  colorDepth : ℚ
  aspect : ℚ
deriving DecidableEq, Repr

/-- Per-channel statistics as reported by the codec for a convolved image. -/
structure ChannelStats where
  mean : ℚ
deriving DecidableEq, Repr

/-- `ImageContentAnalyzer.estimateEdgeCount`: the edge-detection convolution is an
external codec call, passed here as `some stats` on success and `none` on failure;
the catch branch returns the moderate fallback 50. -/
def estimateEdgeCount (convolved : Option ChannelStats) : ℚ :=
  match convolved with
  | some edgeDetected => min 100 ((ChannelStats.mean edgeDetected / 128) * 100)
  | none => 50

/-- `ImageContentAnalyzer.determineContentType`, branching on the characteristics. -/
def determineContentType (c : ImageCharacteristics) : ContentType :=
  if c.hasTransparency ∨ c.edgeCount > 70 ∨ (c.colorComplexity < 40 ∧ c.colorDepth ≤ 6) then
    ContentType.graphic
  else if c.colorComplexity > 60 ∧ c.edgeCount < 40 ∧ ¬c.hasTransparency ∧ c.colorDepth ≥ 8 then
    ContentType.photo
  else
    ContentType.mixed

/-- `ImageContentAnalyzer.determineCompressionStrategy`, keyed by content type. -/
def determineCompressionStrategy (contentType : ContentType)
    (c : ImageCharacteristics) : CompressionStrategy :=
  match contentType with
  | ContentType.photo =>
    if c.colorComplexity > 80 then CompressionStrategy.high_quality
    else CompressionStrategy.balanced
  | ContentType.graphic =>
    if c.hasTransparency ∨ c.edgeCount > 80 then CompressionStrategy.high_quality
    else if c.colorComplexity < 30 ∧ c.edgeCount < 50 then CompressionStrategy.size_optimized
    else CompressionStrategy.balanced
  | ContentType.mixed =>
    if c.colorComplexity > 70 ∨ c.edgeCount > 70 then CompressionStrategy.high_quality
    else CompressionStrategy.balanced

/-- `DynamicQualityCalculator.getBaseQuality`: the fixed 3x3 quality matrix. -/
def getBaseQuality (contentType : ContentType) (strategy : CompressionStrategy) : ℚ :=
  match contentType, strategy with
  | ContentType.photo, CompressionStrategy.high_quality => 92
  | ContentType.photo, CompressionStrategy.balanced => 88
  | ContentType.photo, CompressionStrategy.size_optimized => 82
  | ContentType.graphic, CompressionStrategy.high_quality => 90
  | ContentType.graphic, CompressionStrategy.balanced => 85
  | ContentType.graphic, CompressionStrategy.size_optimized => 78
  | ContentType.mixed, CompressionStrategy.high_quality => 91
  | ContentType.mixed, CompressionStrategy.balanced => 86
  | ContentType.mixed, CompressionStrategy.size_optimized => 80

/-- First adjustment block of `applyQualityAdjustments`: color complexity. -/
def adjustForColorComplexity (q : ℚ) (c : ImageCharacteristics) : ℚ :=
  if c.colorComplexity > 80 then q + 3
  else if c.colorComplexity < 30 then q - 2
  else q

/-- Second adjustment block of `applyQualityAdjustments`: edge content. -/
def adjustForEdgeCount (q : ℚ) (c : ImageCharacteristics) : ℚ :=
  if c.edgeCount > 70 then q + 2
  else if c.edgeCount < 30 then q - 1
  else q

/-- Third adjustment block of `applyQualityAdjustments`: transparency. -/
def adjustForTransparency (q : ℚ) (c : ImageCharacteristics) : ℚ :=
  if c.hasTransparency then q + 2 else q

/-- Fourth adjustment block of `applyQualityAdjustments`: color depth. -/
def adjustForColorDepth (q : ℚ) (c : ImageCharacteristics) : ℚ :=
  if c.colorDepth ≥ 10 then q + 2
  else if c.colorDepth ≤ 6 then q - 1
  else q

/-- Fifth adjustment block of `applyQualityAdjustments`: extreme aspect. -/
def adjustForAspect (q : ℚ) (c : ImageCharacteristics) : ℚ :=
  if c.aspect > 3 ∨ c.aspect < 0.33 then q + 1 else q

/-- Final, content-specific adjustment block of `applyQualityAdjustments`. -/
def adjustForContent (contentType : ContentType) (q : ℚ) (c : ImageCharacteristics) : ℚ :=
  match contentType with
  | ContentType.photo => if c.edgeCount < 25 then q - 1 else q
  | ContentType.graphic => if c.colorComplexity > 60 then q + 2 else q
  | ContentType.mixed =>
    if c.colorComplexity > 70 ∧ c.edgeCount > 60 then q + 1 else q

/-- `DynamicQualityCalculator.applyQualityAdjustments`: the sequential additive
adjustment blocks above in source order, then
`Math.min(95, Math.max(50, Math.round(. )))`. -/
def applyQualityAdjustments (baseQuality : ℚ) (c : ImageCharacteristics)
    (contentType : ContentType) : ℤ :=
  min 95 (max 50 (round (adjustForContent contentType
    (adjustForAspect
      (adjustForColorDepth
        (adjustForTransparency
          (adjustForEdgeCount
            (adjustForColorComplexity baseQuality c) c) c) c) c) c)))

/-- Display name of a content type, as interpolated into the reasoning string. -/
def contentTypeLabel : ContentType → String
  | ContentType.photo => "photo"
  | ContentType.graphic => "graphic"
  | ContentType.mixed => "mixed"

/-- Display name of a strategy after `strategy.replace(\x7b underscore \x7d, space)`. -/
def strategyLabel : CompressionStrategy → String
  | CompressionStrategy.high_quality => "high quality"
  | CompressionStrategy.balanced => "balanced"
  | CompressionStrategy.size_optimized => "size optimized"

/-- `DynamicQualityCalculator.generateQualityReasoning`: the ordered list of rule
labels that fired, rendered as one string.  Numeric interpolations inside the
label texts are elided; the label set and order follow the source. -/
def generateQualityReasoning (contentType : ContentType) (strategy : CompressionStrategy)
    (c : ImageCharacteristics) (minimumQuality finalQuality : ℤ) : String :=
  let reasons : List String :=
    [contentTypeLabel contentType ++ " content with " ++ strategyLabel strategy ++ " strategy"]
  let reasons := reasons ++
    (if c.colorComplexity > 80 then ["high color complexity requires higher quality"]
     else if c.colorComplexity < 30 then ["low color complexity allows lower quality"]
     else [])
  let reasons := reasons ++
    (if c.edgeCount > 70 then ["high edge content needs quality preservation"]
     else if c.edgeCount < 30 then ["smooth gradients allow quality reduction"]
     else [])
  let reasons := reasons ++
    (if c.hasTransparency then ["transparency requires careful compression"] else [])
  let reasons := reasons ++
    (if c.colorDepth ≥ 10 then ["high color depth needs quality preservation"]
     else if c.colorDepth ≤ 6 then ["limited color depth allows compression"]
     else [])
  let reasons := reasons ++
    (if finalQuality = minimumQuality then ["enforced minimum quality threshold"] else [])
  "Quality " ++ toString finalQuality ++ ": " ++ String.intercalate (", ") reasons

/-- The quality decision returned by `DynamicQualityCalculator.calculateOptimalQuality`. -/
structure QualityDecision where
  quality : ℤ
  strategy : CompressionStrategy
  reasoning : String
  contentType : ContentType
deriving DecidableEq, Repr

/-- `DynamicQualityCalculator.calculateOptimalQuality`, starting from the analysis
result (the characteristics): pick the strategy, read the base quality, adjust,
floor at the minimum, and produce the reasoning. -/
def calculateOptimalQuality (minimumQuality : ℤ) (c : ImageCharacteristics)
    (targetStrategy : Option CompressionStrategy) : QualityDecision :=
  let contentType := determineContentType c
  let strategy := targetStrategy.getD (determineCompressionStrategy contentType c)
  let baseQuality := getBaseQuality contentType strategy
  let adjustedQuality := applyQualityAdjustments baseQuality c contentType
  let finalQuality := max minimumQuality adjustedQuality
  { quality := finalQuality
    strategy := strategy
    reasoning := generateQualityReasoning contentType strategy c minimumQuality finalQuality
    contentType := contentType }

/-- Base-plus-adjustments formula written from the words of the specification
(claim C2): the matrix value plus one additive term per documented rule, rounded,
clamped to the interval from 50 to 95, then floored at the minimum quality.
This is the spec side of the refinement; `calculateOptimalQuality` and
`applyQualityAdjustments` above are the code side. -/
def specClaimedQuality (minimumQuality : ℤ) (contentType : ContentType)
    (strategy : CompressionStrategy) (c : ImageCharacteristics) : ℤ :=
  let base := getBaseQuality contentType strategy
  let dColor : ℚ := if c.colorComplexity > 80 then 3 else if c.colorComplexity < 30 then -2 else 0
  let dEdge : ℚ := if c.edgeCount > 70 then 2 else if c.edgeCount < 30 then -1 else 0
  let dTransp : ℚ := if c.hasTransparency then 2 else 0
  let dDepth : ℚ := if c.colorDepth ≥ 10 then 2 else if c.colorDepth ≤ 6 then -1 else 0
  let dAspect : ℚ := if c.aspect > 3 ∨ c.aspect < 0.33 then 1 else 0
  let dContent : ℚ :=
    match contentType with
    | ContentType.photo => if c.edgeCount < 25 then -1 else 0
    | ContentType.graphic => if c.colorComplexity > 60 then 2 else 0
    | ContentType.mixed => if c.colorComplexity > 70 ∧ c.edgeCount > 60 then 1 else 0
  max minimumQuality
    (min 95 (max 50 (round (base + dColor + dEdge + dTransp + dDepth + dAspect + dContent))))

/-- Quality metrics produced by `QualityValidator.calculateQualityMetrics`. -/
structure QualityMetrics where
  qualityLoss : ℚ
  structuralSimilarity : ℚ
  colorAccuracy : ℚ
  sharpnessRetention : ℚ
deriving DecidableEq, Repr

/-- The three sub-comparisons of `calculateQualityMetrics` when the codec
comparison succeeds. -/
structure RawComparison where
  structuralSimilarity : ℚ
  colorAccuracy : ℚ
  sharpnessRetention : ℚ
deriving DecidableEq, Repr

/-- `QualityValidator.calculateQualityMetrics`: on a successful comparison the
three scores plus the derived quality loss; the catch branch returns the
documented conservative defaults. -/
def calculateQualityMetrics (cmp : Option RawComparison) : QualityMetrics :=
  match cmp with
  | some r =>
    { qualityLoss := max 0 (100 -
        ((r.structuralSimilarity + r.colorAccuracy + r.sharpnessRetention) / 3 * 100))
      structuralSimilarity := r.structuralSimilarity
      colorAccuracy := r.colorAccuracy
      sharpnessRetention := r.sharpnessRetention }
  | none =>
    { qualityLoss := 20
      structuralSimilarity := 0.8
      colorAccuracy := 0.85
      sharpnessRetention := 0.8 }

/-- `QualityValidator.calculateOverallQualityScore`: weighted metric sum scaled
by the target quality, clamped to the interval from 0 to 100. -/
def calculateOverallQualityScore (metrics : QualityMetrics) (targetQuality : ℚ) : ℚ :=
  let structuralWeight : ℚ := 0.4
  let colorWeight : ℚ := 0.3
  let sharpnessWeight : ℚ := 0.3
  let weightedScore :=
    (metrics.structuralSimilarity * structuralWeight +
     metrics.colorAccuracy * colorWeight +
     metrics.sharpnessRetention * sharpnessWeight) * 100
  let targetAdjustment := targetQuality / 100
  let adjustedScore := weightedScore * targetAdjustment
  min 100 (max 0 adjustedScore)

/-- Result of `QualityValidator.validateFileIntegrity` (never throws). -/
structure IntegrityResult where
  isValid : Bool
  errMsg : Option String
deriving DecidableEq, Repr

/-- The metrics sub-record of a validation result.  The field
`compressionFactor` embeds the source field named after the original/optimized
size quotient. -/
structure ValidationResultMetrics where
  originalSize : ℤ
  optimizedSize : ℤ
  compressionFactor : ℚ
  qualityLoss : ℚ
  structuralSimilarity : ℚ
deriving DecidableEq, Repr

/-- Result record of `QualityValidator.validateOutputQuality`. -/
structure ValidationResult where
  isValid : Bool
  qualityScore : ℚ
  sizeReduction : ℚ
  meetsThreshold : Bool
  issues : List String
  metrics : ValidationResultMetrics
deriving DecidableEq, Repr

/-- The object returned by the catch branch of `validateOutputQuality`. -/
def validationFailureResult (msg : String) : ValidationResult :=
  { isValid := false
    qualityScore := 0
    sizeReduction := 0
    meetsThreshold := false
    issues := ["Validation failed: " ++ msg]
    metrics :=
      { originalSize := 0
        optimizedSize := 0
        compressionFactor := 0
        qualityLoss := 100
        structuralSimilarity := 0 } }

/-- `QualityValidator.validateOutputQuality`.  The two `fs.stat` calls are passed
in as `Except` values (an `Except.error` is a thrown exception), the image
comparison as `Option RawComparison` (`none` when the comparison fails) and the
integrity check as its result record.  The outer catch turns every exception into
an ordinary returned failure object, so every path is `Except.ok`; issue strings
keep the source wording with numeric interpolations elided. -/
def validateOutputQuality (minimumQualityThreshold maximumSizeIncrease : ℚ)
    (statOriginal statOptimized : Except String ℤ) (cmp : Option RawComparison)
    (integrity : IntegrityResult) (targetQuality : ℚ) :
    Except String ValidationResult :=
  match statOriginal with
  | Except.error e => Except.ok (validationFailureResult e)
  | Except.ok originalSize =>
    match statOptimized with
    | Except.error e => Except.ok (validationFailureResult e)
    | Except.ok optimizedSize =>
      let sizeReduction : ℚ := ((originalSize : ℚ) - (optimizedSize : ℚ)) / (originalSize : ℚ) * 100
      let compressionFactor : ℚ := (originalSize : ℚ) / (optimizedSize : ℚ)
      let issues : List String :=
        if (optimizedSize : ℚ) > (originalSize : ℚ) * maximumSizeIncrease then
          ["Output file is larger than original"]
        else []
      let qualityMetrics := calculateQualityMetrics cmp
      let qualityScore := calculateOverallQualityScore qualityMetrics targetQuality
      let meetsThreshold := qualityScore ≥ minimumQualityThreshold
      let issues := issues ++
        (if meetsThreshold then [] else ["Quality score below threshold"])
      let issues := issues ++
        (if qualityMetrics.qualityLoss > 30 then ["Excessive quality loss"] else [])
      let issues := issues ++
        (if qualityMetrics.structuralSimilarity < 0.8 then ["Low structural similarity"] else [])
      let issues := issues ++
        (if integrity.isValid then []
         else ["File integrity issue: " ++ integrity.errMsg.getD ("")])
      Except.ok
        { isValid := issues.isEmpty
          qualityScore := qualityScore
          sizeReduction := sizeReduction
          meetsThreshold := meetsThreshold
          issues := issues
          metrics :=
            { originalSize := originalSize
              optimizedSize := optimizedSize
              compressionFactor := compressionFactor
              qualityLoss := qualityMetrics.qualityLoss
              structuralSimilarity := qualityMetrics.structuralSimilarity } }

/-- Terminal status of one optimization result. -/
inductive Status
  | success
  | failed
  | skipped
deriving DecidableEq, Repr

/-- `OptimizationResult` from the type definitions.  The field
`compressionPercent` embeds the source percentage field computed by the
converter. -/
structure OptimizationResult where
  originalPath : String
  optimizedPath : String
  originalSize : ℤ
  optimizedSize : ℤ
  compressionPercent : ℚ
  qualityScore : ℚ
  processingTime : ℤ
  status : Status
  errorMessage : Option String
deriving DecidableEq, Repr

/-- Result of `FormatDetector.validateImageFile` as consumed by `processImage`. -/
structure FileValidation where
  isValid : Bool
  errMsg : Option String
deriving DecidableEq, Repr

/-- `BatchProcessor.processImage`, with the effectful collaborators passed in:
the format validation outcome, the conversion result (which, on success, has
written the output file — modelled by consing the output path onto the disk
list), and the quality validation result.  The state component is the list of
files on disk; the pipeline never removes entries from it. -/
def processImage (imagePath : String) (validation : FileValidation)
    (outputPath : String) (conv : OptimizationResult) (qv : ValidationResult)
    (disk : List String) : OptimizationResult × List String :=
  if validation.isValid = false then
    ({ originalPath := imagePath
       optimizedPath := ""
       originalSize := 0
       optimizedSize := 0
       compressionPercent := 0
       qualityScore := 0
       processingTime := 0
       status := Status.skipped
       errorMessage := some (validation.errMsg.getD ("Invalid image file")) }, disk)
  else
    let disk1 := if conv.status = Status.success then outputPath :: disk else disk
    if conv.status = Status.success ∧ qv.isValid = false then
      ({ conv with
          status := Status.failed
          errorMessage :=
            some ("Quality validation failed: " ++ String.intercalate (", ") qv.issues) }, disk1)
    else
      (conv, disk1)

/-- The failed result the parallel worker fabricates inside its catch branch. -/
def workerFailedResult (imagePath msg : String) : OptimizationResult :=
  { originalPath := imagePath
    optimizedPath := ""
    originalSize := 0
    optimizedSize := 0
    compressionPercent := 0
    qualityScore := 0
    processingTime := 0
    status := Status.failed
    errorMessage := some msg }

/-- Results recorded for one work item by `BatchProcessor.processImagesInParallel`.
`processImage` itself never rejects (its body is fully caught), so the only
rejection is the explicit throw after a failed result when continue-on-error is
off; that throw is caught in the same worker, which then records a second,
fabricated failed result before re-throwing. -/
def workerRecorded (continueOnError : Bool) (item : String × OptimizationResult) :
    List OptimizationResult :=
  if item.2.status = Status.failed ∧ continueOnError = false then
    [item.2, workerFailedResult item.1 ((OptimizationResult.errorMessage item.2).getD ("Image processing failed"))]
  else
    [item.2]

/-- The rejection (if any) of one work item promise. -/
def workerRejection (continueOnError : Bool) (item : String × OptimizationResult) :
    Option String :=
  if item.2.status = Status.failed ∧ continueOnError = false then
    some ((OptimizationResult.errorMessage item.2).getD ("Image processing failed"))
  else
    none

/-- `BatchProcessor.processImagesInParallel`: every item promise is created up
front and `Promise.allSettled` waits for all of them, so every item runs to a
terminal state no matter what; afterwards, when continue-on-error is off and at
least one promise rejected, the first rejection in submission order is
re-thrown.  `items` pairs each image path with the result `processImage`
produces for it. -/
def processImagesInParallel (continueOnError : Bool)
    (items : List (String × OptimizationResult)) :
    List OptimizationResult × Except String Unit :=
  let recorded := items.flatMap (workerRecorded continueOnError)
  let outcome : Except String Unit :=
    if continueOnError = false then
      match items.filterMap (workerRejection continueOnError) with
      | [] => Except.ok ()
      | e :: _ => Except.error e
    else
      Except.ok ()
  (recorded, outcome)

/-- Final report record. -/
structure ProcessingReport where
  totalImages : ℕ
  successfulConversions : ℕ
  failedConversions : ℕ
  totalSizeReduction : ℤ
  averageCompression : ℚ
  processingTime : ℤ
  results : List OptimizationResult
deriving DecidableEq, Repr

/-- `ProgressReporter.generateFinalReport`: fold over all recorded results. -/
def generateFinalReport (results : List OptimizationResult)
    (totalProcessingTime : ℤ) : ProcessingReport :=
  let successfulResults := results.filter (fun r => decide (r.status = Status.success))
  let failedResults := results.filter (fun r => decide (r.status = Status.failed))
  { totalImages := results.length
    successfulConversions := successfulResults.length
    failedConversions := failedResults.length
    totalSizeReduction :=
      successfulResults.foldl (fun s r => s + (r.originalSize - r.optimizedSize)) 0
    averageCompression :=
      if successfulResults.length > 0 then
        (successfulResults.foldl (fun s r => s + r.compressionPercent) 0) /
          (successfulResults.length : ℚ)
      else 0
    processingTime := totalProcessingTime
    results := results }

/-- Quality section of the optimization configuration. -/
structure QualityConfig where
  photo : ℤ
  graphic : ℤ
  mixed : ℤ
  minimum : ℤ
deriving DecidableEq, Repr

/-- Dimensions section.  `preserveAspect` embeds the aspect-preservation flag. -/
structure DimensionsConfig where
  maxWidth : ℤ
  maxHeight : ℤ
  preserveAspect : Bool
deriving DecidableEq, Repr

/-- Processing section. -/
structure ProcessingConfig where
  concurrency : ℤ
  enableProgressReporting : Bool
  continueOnError : Bool
deriving DecidableEq, Repr

/-- Report output format. -/
inductive ReportFormat
  | json
  | text
deriving DecidableEq, Repr

/-- Output section. -/
structure OutputConfig where
  preserveFilenames : Bool
  generateReport : Bool
  reportFormat : ReportFormat
deriving DecidableEq, Repr

/-- `OptimizationConfig` from the type definitions. -/
structure OptimizationConfig where
  quality : QualityConfig
  dimensions : DimensionsConfig
  processing : ProcessingConfig
  output : OutputConfig
  supportedFormats : List String
deriving DecidableEq, Repr

/-- `DEFAULT_CONFIG` from the type definitions. -/
def DEFAULT_CONFIG : OptimizationConfig :=
  { quality := { photo := 88, graphic := 85, mixed := 86, minimum := 78 }
    dimensions := { maxWidth := 1920, maxHeight := 1080, preserveAspect := true }
    processing := { concurrency := 4, enableProgressReporting := true, continueOnError := true }
    output := { preserveFilenames := true, generateReport := true, reportFormat := ReportFormat.json }
    supportedFormats := ["jpg", "jpeg", "png", "dng"] }

/-- A partial configuration: each top-level section is optional (the TypeScript
`Partial` makes top-level fields optional while a section, when present, is a
complete record). -/
structure ConfigUpdates where
  quality : Option QualityConfig
  dimensions : Option DimensionsConfig
  processing : Option ProcessingConfig
  output : Option OutputConfig
  supportedFormats : Option (List String)
deriving DecidableEq, Repr

/-- The all-empty update. -/
def noUpdates : ConfigUpdates :=
  { quality := none, dimensions := none, processing := none, output := none,
    supportedFormats := none }

/-- `ConfigManager.mergeConfig`: object spread of each present section over the base. -/
def mergeConfig (base : OptimizationConfig) (updates : Option ConfigUpdates) :
    OptimizationConfig :=
  match updates with
  | none => base
  | some u =>
    { quality := u.quality.getD base.quality
      dimensions := u.dimensions.getD base.dimensions
      processing := u.processing.getD base.processing
      output := u.output.getD base.output
      supportedFormats := u.supportedFormats.getD base.supportedFormats }

/-- `ConfigManager.validateConfig`: threshold and concurrency checks, in source
order; an `Except.error` is the thrown configuration error. -/
def validateConfig (c : OptimizationConfig) : Except String Unit :=
  if c.quality.photo < c.quality.minimum ∨ c.quality.photo > 100 then
    Except.error ("Photo quality must be between minimum and 100")
  else if c.quality.graphic < c.quality.minimum ∨ c.quality.graphic > 100 then
    Except.error ("Graphic quality must be between minimum and 100")
  else if c.quality.mixed < c.quality.minimum ∨ c.quality.mixed > 100 then
    Except.error ("Mixed quality must be between minimum and 100")
  else if c.quality.minimum < 1 ∨ c.quality.minimum > 100 then
    Except.error ("Minimum quality must be between 1 and 100")
  else if c.processing.concurrency < 1 then
    Except.error ("Concurrency must be at least 1")
  else
    Except.ok ()

/-- The `ConfigManager` constructor: it merges the custom configuration over the
defaults and does not call `validateConfig`; it cannot throw. -/
def ConfigManager.construct (customConfig : Option ConfigUpdates) :
    Except String OptimizationConfig :=
  Except.ok (mergeConfig DEFAULT_CONFIG customConfig)

/-- `ConfigManager.updateConfig`: merge the updates over the current
configuration, then validate; the validation error propagates. -/
def ConfigManager.updateConfig (current : OptimizationConfig)
    (updates : Option ConfigUpdates) : Except String OptimizationConfig :=
  let merged := mergeConfig current updates
  match validateConfig merged with
  | Except.ok _ => Except.ok merged
  | Except.error e => Except.error e

/-- The `BatchProcessor` constructor: it builds a `ConfigManager` from the given
configuration and wires up the collaborators; nothing in it validates the
configuration, so it cannot throw either. -/
def BatchProcessor.construct (config : Option ConfigUpdates) :
    Except String OptimizationConfig :=
  ConfigManager.construct config

/-- Demonstration characteristics with transparency set. -/
def demoTransparent : ImageCharacteristics :=
  { colorComplexity := 50, edgeCount := 50, hasTransparency := true,
    colorDepth := 8, aspect := 1 }

/-- Demonstration characteristics of a plain mid-range image. -/
def demoPlain : ImageCharacteristics :=
  { colorComplexity := 50, edgeCount := 50, hasTransparency := false,
    colorDepth := 8, aspect := 1 }

/-- Claim C10: if the edge-detection convolution fails for any reason,
`estimateEdgeCount` returns the fixed fallback value 50 instead of propagating
the error, feeding a moderate edge score to all downstream decisions. -/
theorem edge_detection_failure_returns_50 : estimateEdgeCount none = 50 := rfl

/-- Claim C3: for every characteristics value with transparency set, content
classification never returns photo: the result is graphic or mixed (here in
fact always graphic). -/
theorem transparency_never_photo (c : ImageCharacteristics)
    (h : c.hasTransparency = true) :
    determineContentType c ≠ ContentType.photo ∧
      (determineContentType c = ContentType.graphic ∨
        determineContentType c = ContentType.mixed) := by
  have hg : determineContentType c = ContentType.graphic := by
    simp [determineContentType, h]
  rw [hg]
  exact ⟨by decide, Or.inl rfl⟩

/-- Witness for claim C3 at a concrete transparent characteristics value. -/
theorem transparency_never_photo_witness :
    demoTransparent.hasTransparency = true ∧
      determineContentType demoTransparent ≠ ContentType.photo :=
  ⟨rfl, (transparency_never_photo demoTransparent rfl).1⟩

/-- Counting successes and failures never exceeds the length of the list they
are filtered from, since the two status filters are disjoint. -/
lemma filter_status_length_le (l : List OptimizationResult) :
    (l.filter (fun r => decide (r.status = Status.success))).length +
      (l.filter (fun r => decide (r.status = Status.failed))).length ≤ l.length := by
  induction l with
  | nil => simp
  | cons x xs ih =>
    cases hx : x.status <;> simp [List.filter_cons, hx] <;> omega

/-- Claim C8: for every batch run, the produced report satisfies
totalImages = length of the results list and
successfulConversions + failedConversions is at most totalImages. -/
theorem report_totals_invariant (results : List OptimizationResult) (t : ℤ) :
    (generateFinalReport results t).totalImages =
        (generateFinalReport results t).results.length ∧
      (generateFinalReport results t).successfulConversions +
          (generateFinalReport results t).failedConversions ≤
        (generateFinalReport results t).totalImages := by
  refine ⟨rfl, ?_⟩
  simpa [generateFinalReport] using filter_status_length_le results

/-- The color-complexity block adds an independent term. -/
lemma adjustForColorComplexity_eq (q : ℚ) (c : ImageCharacteristics) :
    adjustForColorComplexity q c = q +
      (if c.colorComplexity > 80 then (3 : ℚ)
       else if c.colorComplexity < 30 then -2 else 0) := by
  unfold adjustForColorComplexity
  split_ifs <;> ring

/-- The edge-content block adds an independent term. -/
lemma adjustForEdgeCount_eq (q : ℚ) (c : ImageCharacteristics) :
    adjustForEdgeCount q c = q +
      (if c.edgeCount > 70 then (2 : ℚ)
       else if c.edgeCount < 30 then -1 else 0) := by
  unfold adjustForEdgeCount
  split_ifs <;> ring

/-- The transparency block adds an independent term. -/
lemma adjustForTransparency_eq (q : ℚ) (c : ImageCharacteristics) :
    adjustForTransparency q c = q + (if c.hasTransparency then (2 : ℚ) else 0) := by
  unfold adjustForTransparency
  split_ifs <;> ring

/-- The color-depth block adds an independent term. -/
lemma adjustForColorDepth_eq (q : ℚ) (c : ImageCharacteristics) :
    adjustForColorDepth q c = q +
      (if c.colorDepth ≥ 10 then (2 : ℚ)
       else if c.colorDepth ≤ 6 then -1 else 0) := by
  unfold adjustForColorDepth
  split_ifs <;> ring

/-- The aspect block adds an independent term. -/
lemma adjustForAspect_eq (q : ℚ) (c : ImageCharacteristics) :
    adjustForAspect q c = q +
      (if c.aspect > 3 ∨ c.aspect < 0.33 then (1 : ℚ) else 0) := by
  unfold adjustForAspect
  split_ifs <;> ring

/-- The content-specific block adds an independent term. -/
lemma adjustForContent_eq (contentType : ContentType) (q : ℚ) (c : ImageCharacteristics) :
    adjustForContent contentType q c = q +
      (match contentType with
       | ContentType.photo => if c.edgeCount < 25 then (-1 : ℚ) else 0
       | ContentType.graphic => if c.colorComplexity > 60 then (2 : ℚ) else 0
       | ContentType.mixed =>
         if c.colorComplexity > 70 ∧ c.edgeCount > 60 then (1 : ℚ) else 0) := by
  cases contentType <;>
    · unfold adjustForContent
      split_ifs <;> ring

/-- The sequential adjustment accumulation equals one sum of independent
additive terms, one per documented rule. -/
lemma applyQualityAdjustments_eq_sum (baseQuality : ℚ) (c : ImageCharacteristics)
    (contentType : ContentType) :
    applyQualityAdjustments baseQuality c contentType =
      min 95 (max 50 (round (baseQuality +
        (if c.colorComplexity > 80 then (3 : ℚ) else if c.colorComplexity < 30 then -2 else 0) +
        (if c.edgeCount > 70 then (2 : ℚ) else if c.edgeCount < 30 then -1 else 0) +
        (if c.hasTransparency then (2 : ℚ) else 0) +
        (if c.colorDepth ≥ 10 then (2 : ℚ) else if c.colorDepth ≤ 6 then -1 else 0) +
        (if c.aspect > 3 ∨ c.aspect < 0.33 then (1 : ℚ) else 0) +
        (match contentType with
         | ContentType.photo => if c.edgeCount < 25 then (-1 : ℚ) else 0
         | ContentType.graphic => if c.colorComplexity > 60 then (2 : ℚ) else 0
         | ContentType.mixed =>
           if c.colorComplexity > 70 ∧ c.edgeCount > 60 then (1 : ℚ) else 0)))) := by
  rw [applyQualityAdjustments, adjustForContent_eq, adjustForAspect_eq,
    adjustForColorDepth_eq, adjustForTransparency_eq, adjustForEdgeCount_eq,
    adjustForColorComplexity_eq]

/-- Claim C2: for every content type, strategy and characteristics value, the
computed quality equals the base value of the fixed 3x3 matrix plus the
additive adjustments of the documented rules, rounded, clamped to the interval
from 50 to 95, then floored at the minimum quality; and the quality returned
by `calculateOptimalQuality` is exactly that formula at the analyzed content
type and selected strategy. -/
theorem quality_matches_spec_formula (minimumQuality : ℤ) (contentType : ContentType)
    (strategy : CompressionStrategy) (c : ImageCharacteristics)
    (targetStrategy : Option CompressionStrategy) :
    max minimumQuality (applyQualityAdjustments (getBaseQuality contentType strategy) c contentType) =
        specClaimedQuality minimumQuality contentType strategy c ∧
      (calculateOptimalQuality minimumQuality c targetStrategy).quality =
        specClaimedQuality minimumQuality (determineContentType c)
          (targetStrategy.getD (determineCompressionStrategy (determineContentType c) c)) c := by
  have key : ∀ (t : ContentType) (s : CompressionStrategy),
      max minimumQuality (applyQualityAdjustments (getBaseQuality t s) c t) =
        specClaimedQuality minimumQuality t s c := by
    intro t s
    rw [applyQualityAdjustments_eq_sum]
    simp only [specClaimedQuality]
  exact ⟨key contentType strategy, key (determineContentType c) _⟩

/-- The adjusted quality is clamped, hence at most 95. -/
lemma applyQualityAdjustments_le_95 (baseQuality : ℚ) (c : ImageCharacteristics)
    (contentType : ContentType) :
    applyQualityAdjustments baseQuality c contentType ≤ 95 := by
  unfold applyQualityAdjustments
  exact min_le_left _ _

/-- Claim C1 (amended): for every characteristics value and every minimum
quality between 1 and 95, the calculator output lies in the interval from the
minimum quality to 95, and identical inputs always yield the identical quality
and reasoning. -/
theorem quality_within_bounds (minimumQuality : ℤ) (c : ImageCharacteristics)
    (targetStrategy : Option CompressionStrategy)
    (_hlow : 1 ≤ minimumQuality) (h95 : minimumQuality ≤ 95) :
    (minimumQuality ≤ (calculateOptimalQuality minimumQuality c targetStrategy).quality ∧
      (calculateOptimalQuality minimumQuality c targetStrategy).quality ≤ 95) ∧
    (∀ c2 ts2, c = c2 → targetStrategy = ts2 →
        calculateOptimalQuality minimumQuality c targetStrategy =
          calculateOptimalQuality minimumQuality c2 ts2) := by
  refine ⟨⟨?_, ?_⟩, ?_⟩
  · exact le_max_left _ _
  · exact max_le h95 (applyQualityAdjustments_le_95 _ _ _)
  · intro c2 ts2 hc hts
    rw [hc, hts]

/-- Witness for claim C1 at minimum quality 85 and a concrete image. -/
theorem quality_within_bounds_witness :
    ((1 : ℤ) ≤ 85 ∧ (85 : ℤ) ≤ 95) ∧
      (85 : ℤ) ≤ (calculateOptimalQuality 85 demoPlain none).quality ∧
      (calculateOptimalQuality 85 demoPlain none).quality ≤ 95 := by
  have h := quality_within_bounds 85 demoPlain none (by decide) (by decide)
  exact ⟨⟨by decide, by decide⟩, h.1.1, h.1.2⟩

/-- Counterexample to claim C1 as stated: minimum quality 96 is a valid value
in the 1 to 100 range, yet the returned quality is 96, outside the claimed
interval bounded by 95. -/
theorem quality_exceeds_95_counterexample :
    ((1 : ℤ) ≤ 96 ∧ (96 : ℤ) ≤ 100) ∧
      (calculateOptimalQuality 96 demoPlain none).quality = 96 ∧
      ¬((calculateOptimalQuality 96 demoPlain none).quality ≤ 95) := by
  have hq : (calculateOptimalQuality 96 demoPlain none).quality = 96 := by
    have hct : determineContentType demoPlain = ContentType.mixed := by
      norm_num [determineContentType, demoPlain]
    have hadj : ∀ s : CompressionStrategy,
        applyQualityAdjustments (getBaseQuality ContentType.mixed s) demoPlain
          ContentType.mixed = round (getBaseQuality ContentType.mixed s) := by
      intro s
      norm_num [applyQualityAdjustments, adjustForColorComplexity, adjustForEdgeCount,
        adjustForTransparency, adjustForColorDepth, adjustForAspect, adjustForContent,
        demoPlain]
      cases s <;> norm_num [getBaseQuality, round_eq]
    simp only [calculateOptimalQuality, hct, hadj, Option.getD]
    cases hs : determineCompressionStrategy ContentType.mixed demoPlain <;>
      norm_num [getBaseQuality, round_eq]
  exact ⟨⟨by decide, by decide⟩, hq, by rw [hq]; decide⟩

/-- Claim C6: the overall quality score is the weighted metric formula of the
specification clamped to the interval from 0 to 100, and holding the metrics
fixed it is monotonically non-decreasing in the quality used for encoding. -/
theorem overall_score_formula_and_monotone (m : QualityMetrics) (q1 q2 : ℚ)
    (hq0 : 0 ≤ q1) (hq : q1 ≤ q2) :
    (∀ q : ℚ, calculateOverallQualityScore m q =
        min 100 (max 0 (100 *
          (0.4 * m.structuralSimilarity + 0.3 * m.colorAccuracy +
            0.3 * m.sharpnessRetention) * (q / 100)))) ∧
      calculateOverallQualityScore m q1 ≤ calculateOverallQualityScore m q2 := by
  constructor
  · intro q
    simp only [calculateOverallQualityScore]
    refine congrArg (fun z : ℚ => min 100 (max 0 z)) ?_
    ring
  · simp only [calculateOverallQualityScore]
    set w : ℚ := (m.structuralSimilarity * 0.4 + m.colorAccuracy * 0.3 +
      m.sharpnessRetention * 0.3) * 100 with hw
    refine min_le_min le_rfl ?_
    rcases le_or_lt 0 w with hw0 | hw0
    · refine max_le_max le_rfl ?_
      have hdiv : q1 / 100 ≤ q2 / 100 := by
        apply div_le_div_of_nonneg_right hq
        norm_num
      exact mul_le_mul_of_nonneg_left hdiv hw0
    · have hq20 : 0 ≤ q2 := le_trans hq0 hq
      have h1 : w * (q1 / 100) ≤ 0 := by
        apply mul_nonpos_iff.mpr
        right
        constructor
        · exact le_of_lt hw0
        · positivity
      calc max 0 (w * (q1 / 100)) = 0 := max_eq_left h1
        _ ≤ max 0 (w * (q2 / 100)) := le_max_left _ _

/-- Demonstration metrics: the conservative defaults. -/
def demoMetrics : QualityMetrics :=
  { qualityLoss := 20, structuralSimilarity := 0.8, colorAccuracy := 0.85,
    sharpnessRetention := 0.8 }

/-- Witness for claim C6 at a concrete metric record and qualities 50 and 80. -/
theorem overall_score_monotone_witness :
    ((0 : ℚ) ≤ 50 ∧ (50 : ℚ) ≤ 80) ∧
      calculateOverallQualityScore demoMetrics 50 ≤
        calculateOverallQualityScore demoMetrics 80 :=
  ⟨⟨by norm_num, by norm_num⟩,
    (overall_score_formula_and_monotone demoMetrics 50 80 (by norm_num) (by norm_num)).2⟩

/-- Claim C5 (amended): `validateOutputQuality` never raises: every execution
path returns a result object.  When either file is unreadable the returned
object is the failure record (isValid false, score 0, quality loss 100) rather
than a thrown error, and a failure of the image comparison itself downgrades
the metrics to the fixed conservative defaults. -/
theorem validateOutputQuality_never_throws (mt msi : ℚ) (sO sZ : Except String ℤ)
    (cmp : Option RawComparison) (integrity : IntegrityResult) (q : ℚ) :
    (∃ r, validateOutputQuality mt msi sO sZ cmp integrity q = Except.ok r) ∧
    (∀ e, sO = Except.error e →
        validateOutputQuality mt msi sO sZ cmp integrity q =
          Except.ok (validationFailureResult e)) ∧
    (∀ e v, sO = Except.ok v → sZ = Except.error e →
        validateOutputQuality mt msi sO sZ cmp integrity q =
          Except.ok (validationFailureResult e)) ∧
    calculateQualityMetrics none =
      { qualityLoss := 20, structuralSimilarity := 0.8, colorAccuracy := 0.85,
        sharpnessRetention := 0.8 } := by
  refine ⟨?_, ?_, ?_, rfl⟩
  · cases sO with
    | error e => exact ⟨_, rfl⟩
    | ok v =>
      cases sZ with
      | error e => exact ⟨_, rfl⟩
      | ok w => exact ⟨_, rfl⟩
  · rintro e rfl
    rfl
  · rintro e v rfl rfl
    rfl

/-- Witness for claim C5: a concrete unreadable original file yields the
returned failure record. -/
theorem validateOutputQuality_never_throws_witness :
    (Except.error ("EACCES") : Except String ℤ) = Except.error ("EACCES") ∧
      validateOutputQuality 70 (6 / 5) (Except.error ("EACCES")) (Except.ok 10)
          none { isValid := true, errMsg := none } 80 =
        Except.ok (validationFailureResult ("EACCES")) :=
  ⟨rfl, (validateOutputQuality_never_throws 70 (6 / 5) (Except.error ("EACCES"))
      (Except.ok 10) none { isValid := true, errMsg := none } 80).2.1
        ("EACCES") rfl⟩

/-- Counterexample to claim C5 as stated: with an unreadable original file the
call does not raise; it returns an ordinary (invalid) result object. -/
theorem unreadable_file_does_not_raise_counterexample :
    validateOutputQuality 70 (6 / 5) (Except.error ("ENOENT")) (Except.ok 10)
        none { isValid := true, errMsg := none } 80 =
      Except.ok (validationFailureResult ("ENOENT")) ∧
    (validationFailureResult ("ENOENT")).isValid = false := ⟨rfl, rfl⟩

/-- Claim C7: when the format validation passed, the encode succeeded and the
quality validation reports invalid, the result status flips from success to
failed with the joined issues as error message, every other result field is
unchanged, and the already-written output file stays on disk. -/
theorem validation_failure_flips_status (imagePath outputPath : String)
    (validation : FileValidation) (conv : OptimizationResult) (qv : ValidationResult)
    (disk : List String) (hv : validation.isValid = true)
    (hc : conv.status = Status.success) (hq : qv.isValid = false) :
    (processImage imagePath validation outputPath conv qv disk).1.status = Status.failed ∧
    (processImage imagePath validation outputPath conv qv disk).1.errorMessage =
      some ("Quality validation failed: " ++ String.intercalate (", ") qv.issues) ∧
    (processImage imagePath validation outputPath conv qv disk).1.originalPath =
      conv.originalPath ∧
    (processImage imagePath validation outputPath conv qv disk).1.optimizedPath =
      conv.optimizedPath ∧
    (processImage imagePath validation outputPath conv qv disk).1.originalSize =
      conv.originalSize ∧
    (processImage imagePath validation outputPath conv qv disk).1.optimizedSize =
      conv.optimizedSize ∧
    (processImage imagePath validation outputPath conv qv disk).1.compressionPercent =
      conv.compressionPercent ∧
    (processImage imagePath validation outputPath conv qv disk).1.qualityScore =
      conv.qualityScore ∧
    (processImage imagePath validation outputPath conv qv disk).1.processingTime =
      conv.processingTime ∧
    (processImage imagePath validation outputPath conv qv disk).2 = outputPath :: disk ∧
    outputPath ∈ (processImage imagePath validation outputPath conv qv disk).2 := by
  have hrun : processImage imagePath validation outputPath conv qv disk =
      ({ conv with
          status := Status.failed
          errorMessage :=
            some ("Quality validation failed: " ++ String.intercalate (", ") qv.issues) },
        outputPath :: disk) := by
    simp [processImage, hv, hc, hq]
  rw [hrun]
  refine ⟨rfl, rfl, rfl, rfl, rfl, rfl, rfl, rfl, rfl, rfl, ?_⟩
  exact List.mem_cons_self _ _

/-- A concrete successful conversion result. -/
def demoConverted : OptimizationResult :=
  { originalPath := "a.jpg", optimizedPath := "a.webp", originalSize := 1000,
    optimizedSize := 400, compressionPercent := 60, qualityScore := 86,
    processingTime := 12, status := Status.success, errorMessage := none }

/-- A concrete failed validation outcome. -/
def demoInvalidValidation : ValidationResult :=
  { isValid := false, qualityScore := 40, sizeReduction := 60,
    meetsThreshold := false, issues := ["Quality score below threshold"],
    metrics := { originalSize := 1000, optimizedSize := 400, compressionFactor := 2.5,
                 qualityLoss := 35, structuralSimilarity := 0.7 } }

/-- Witness for claim C7 at a concrete pipeline run. -/
theorem validation_failure_flips_status_witness :
    (processImage ("a.jpg") { isValid := true, errMsg := none } ("a.webp")
        demoConverted demoInvalidValidation []).1.status = Status.failed ∧
      ("a.webp" : String) ∈ (processImage ("a.jpg") { isValid := true, errMsg := none }
        ("a.webp") demoConverted demoInvalidValidation []).2 := by
  have h := validation_failure_flips_status ("a.jpg") ("a.webp")
    { isValid := true, errMsg := none } demoConverted demoInvalidValidation []
    rfl rfl rfl
  exact ⟨h.1, h.2.2.2.2.2.2.2.2.2.2⟩

/-- A concrete failed per-item result (what `processImage` returns for a
corrupt first file). -/
def demoFailed : OptimizationResult :=
  { originalPath := "a.jpg", optimizedPath := "", originalSize := 0,
    optimizedSize := 0, compressionPercent := 0, qualityScore := 0,
    processingTime := 3, status := Status.failed, errorMessage := some ("boom") }

/-- A concrete successful per-item result for the second file. -/
def demoSucceeded : OptimizationResult :=
  { originalPath := "b.jpg", optimizedPath := "b.webp", originalSize := 100,
    optimizedSize := 40, compressionPercent := 60, qualityScore := 80,
    processingTime := 5, status := Status.success, errorMessage := none }

/-- A two-item batch whose first item fails. -/
def demoBatchItems : List (String × OptimizationResult) :=
  [("a.jpg", demoFailed), ("b.jpg", demoSucceeded)]

/-- Counterexample to claim C4 as stated: with continue-on-error off and the
first item failed, the second item is still scheduled and runs to completion —
its success result is recorded (and the failed item is even recorded twice) —
while the run as a whole fails with the first error. -/
theorem later_items_still_run_counterexample :
    (processImagesInParallel false demoBatchItems).2 = Except.error ("boom") ∧
      demoFailed.status = Status.failed ∧
      (processImagesInParallel false demoBatchItems).1 =
        [demoFailed, workerFailedResult ("a.jpg") ("boom"), demoSucceeded] ∧
      demoSucceeded ∈ (processImagesInParallel false demoBatchItems).1 := by
  have hlist : (processImagesInParallel false demoBatchItems).1 =
      [demoFailed, workerFailedResult ("a.jpg") ("boom"), demoSucceeded] := rfl
  refine ⟨rfl, rfl, hlist, ?_⟩
  rw [hlist]
  simp

/-- With continue-on-error on, a worker records exactly the pipeline result. -/
lemma workerRecorded_continue (item : String × OptimizationResult) :
    workerRecorded true item = [item.2] := by
  simp [workerRecorded]

/-- Every item has its own pipeline result among what its worker records. -/
lemma workerRecorded_self_mem (co : Bool) (item : String × OptimizationResult) :
    item.2 ∈ workerRecorded co item := by
  unfold workerRecorded
  split_ifs <;> simp

/-- With continue-on-error on, the recorded list is exactly the item results. -/
lemma flatMap_workerRecorded_continue (items : List (String × OptimizationResult)) :
    items.flatMap (workerRecorded true) = items.map Prod.snd := by
  induction items with
  | nil => rfl
  | cons x xs ih => simp [workerRecorded_continue, ih]

/-- Claim C4 (amended): with continue-on-error on, every item runs, the run
succeeds and the report counts the failures; with continue-on-error off and
some failed item, the run fails carrying the first rejection in submission
order, but later items are still scheduled and run to completion — every item
result is recorded, not only those in flight at the first failure. -/
theorem batch_failure_policy_amended (items : List (String × OptimizationResult)) :
    ((processImagesInParallel true items).1 = items.map Prod.snd ∧
      (processImagesInParallel true items).2 = Except.ok ()) ∧
    (∀ it, it ∈ items → it.2 ∈ (processImagesInParallel false items).1) ∧
    ((processImagesInParallel false items).2 =
      match items.filterMap (workerRejection false) with
      | [] => Except.ok ()
      | e :: _ => Except.error e) ∧
    (generateFinalReport (processImagesInParallel true items).1 0).failedConversions =
      (items.filter (fun it => decide (it.2.status = Status.failed))).length := by
  have hmap : (processImagesInParallel true items).1 = items.map Prod.snd :=
    flatMap_workerRecorded_continue items
  refine ⟨⟨hmap, rfl⟩, ?_, rfl, ?_⟩
  · intro it hit
    have hrec : (processImagesInParallel false items).1 =
        items.flatMap (workerRecorded false) := rfl
    rw [hrec]
    exact List.mem_flatMap.mpr ⟨it, hit, workerRecorded_self_mem false it⟩
  · rw [hmap]
    simp only [generateFinalReport, List.filter_map, List.length_map]
    rfl

/-- Witness for claim C4 at the concrete two-item batch. -/
theorem batch_failure_policy_amended_witness :
    ("b.jpg", demoSucceeded) ∈ demoBatchItems ∧
      demoSucceeded ∈ (processImagesInParallel false demoBatchItems).1 := by
  have h := batch_failure_policy_amended demoBatchItems
  exact ⟨by simp [demoBatchItems], h.2.1 ("b.jpg", demoSucceeded) (by simp [demoBatchItems])⟩

/-- An update carrying an invalid concurrency value. -/
def invalidProcessingUpdates : ConfigUpdates :=
  { quality := none, dimensions := none,
    processing := some { concurrency := 0, enableProgressReporting := true,
                         continueOnError := true },
    output := none, supportedFormats := none }

/-- Counterexample to claim C9 as stated: constructing the processor with a
concurrency below 1 succeeds — the constructor merges without validating —
even though the merged configuration is invalid per `validateConfig`. -/
theorem invalid_concurrency_construction_succeeds_counterexample :
    BatchProcessor.construct (some invalidProcessingUpdates) =
      Except.ok (mergeConfig DEFAULT_CONFIG (some invalidProcessingUpdates)) ∧
      (mergeConfig DEFAULT_CONFIG (some invalidProcessingUpdates)).processing.concurrency < 1 ∧
      validateConfig (mergeConfig DEFAULT_CONFIG (some invalidProcessingUpdates)) =
        Except.error ("Concurrency must be at least 1") := by
  refine ⟨rfl, by decide, ?_⟩
  rfl

/-- An invalid threshold or concurrency always makes `validateConfig` throw. -/
lemma validateConfig_error_of_invalid (c : OptimizationConfig)
    (h : c.processing.concurrency < 1 ∨ c.quality.minimum < 1 ∨ c.quality.minimum > 100) :
    ∃ e, validateConfig c = Except.error e := by
  unfold validateConfig
  split_ifs with h1 h2 h3 h4 h5
  any_goals exact ⟨_, rfl⟩
  exfalso
  push_neg at h4
  rcases h with hc | hm | hm
  · exact h5 hc
  · omega
  · omega

/-- Claim C9 (amended): the constructor never fails — it merges the custom
configuration without validating — while an invalid minimum quality or
concurrency makes `updateConfig` (which calls `validateConfig`) throw the
configuration error; before a CLI run the option parser separately rejects
such values. -/
theorem config_validation_amended (base : OptimizationConfig) (u : Option ConfigUpdates) :
    (∃ cfg, ConfigManager.construct u = Except.ok cfg) ∧
    ((mergeConfig base u).processing.concurrency < 1 ∨
        (mergeConfig base u).quality.minimum < 1 ∨
        (mergeConfig base u).quality.minimum > 100 →
      ∃ e, ConfigManager.updateConfig base u = Except.error e) := by
  refine ⟨⟨_, rfl⟩, ?_⟩
  intro h
  obtain ⟨e, he⟩ := validateConfig_error_of_invalid _ h
  exact ⟨e, by simp [ConfigManager.updateConfig, he]⟩

/-- Witness for claim C9 at the concrete invalid update. -/
theorem config_validation_amended_witness :
    (mergeConfig DEFAULT_CONFIG (some invalidProcessingUpdates)).processing.concurrency < 1 ∧
      ∃ e, ConfigManager.updateConfig DEFAULT_CONFIG (some invalidProcessingUpdates) =
        Except.error e := by
  have h := config_validation_amended DEFAULT_CONFIG (some invalidProcessingUpdates)
  exact ⟨by decide, h.2 (Or.inl (by decide))⟩
